import Mathlib

/-!
Verification of the gesture-to-combat pipeline of the magic-spell repository.

The development shallowly embeds the core logic of
`src/hooks/useTensorFlowHandTracking.ts` (gesture classification),
`src/components/MagicSpellSystem.tsx` (cast state machine, projectile /
damage simulation, target respawn) and `src/App.tsx` (mana regeneration,
experience ledger).  JavaScript numbers are modelled as exact rationals
(`ℚ`); the interesting numeric constants (damage, mana costs, the 30-unit
hit radius, the speed 15, the regeneration step 2) are small integers, so
exact arithmetic matches the floating-point program on every input used
here.  React `useState` cells become fields of explicit state records, and
each `useEffect` body becomes a state-transition function; within one
effect run all reads see the render snapshot (the state the run started
from), exactly as the closures in the source do.
-/

namespace MagicSpell

/-- Gesture labels returned by `detectGesture` in
`useTensorFlowHandTracking.ts` (strings in the source, an enumeration
here; only these seven values ever occur). -/
inductive Gesture where
  | none
  | fist
  | palm
  | point
  | peace
  | rock
  | unknown
deriving DecidableEq, Repr

/-- A tracked 2-D point (a landmark or keypoint); the source carries a
third coordinate and a name which no modelled logic reads. -/
structure Pt where
  x : ℚ
  y : ℚ
deriving DecidableEq, Repr

/-- `landmarks[i][1]`: the y-coordinate of the i-th landmark, as read by
`detectGesture` (landmark lists from the pose model always have 21
entries, so the default never fires on real input). -/
def yAt (landmarks : List Pt) (i : ℕ) : ℚ :=
  (landmarks.getD i ⟨0, 0⟩).y

/-- The branch cascade of `detectGesture`
(`useTensorFlowHandTracking.ts` lines 51-71), factored over the five
extension booleans computed on lines 36-40.  `extendedCount` is the
length of the filtered boolean list, as on lines 42-48. -/
def classify (thumb index middle ring pinky : Bool) : Gesture :=
  if ¬index ∧ ¬middle ∧ ¬ring ∧ ¬pinky then Gesture.fist
  else if (List.filter (fun b => b) [thumb, index, middle, ring, pinky]).length = 5 then
    Gesture.palm
  else if index ∧ ¬middle ∧ ¬ring ∧ ¬pinky then Gesture.point
  else if index ∧ middle ∧ ¬ring ∧ ¬pinky then Gesture.peace
  else if thumb ∧ index ∧ pinky ∧ ¬middle ∧ ¬ring then Gesture.rock
  else Gesture.unknown

/-- `detectGesture` from `useTensorFlowHandTracking.ts` lines 26-72: an
empty/missing landmark set yields `none`; otherwise each digit is
"extended" when its tip's y is strictly below its designated proximal
joint's y (tip indices 4, 8, 12, 16, 20 against joints 2, 6, 10, 14, 18). -/
def detectGesture (landmarks : List Pt) : Gesture :=
  if landmarks.isEmpty then Gesture.none
  else
    classify
      (decide (yAt landmarks 4 < yAt landmarks 2))
      (decide (yAt landmarks 8 < yAt landmarks 6))
      (decide (yAt landmarks 12 < yAt landmarks 10))
      (decide (yAt landmarks 16 < yAt landmarks 14))
      (decide (yAt landmarks 20 < yAt landmarks 18))

/-- One element of the static `SPELLS` catalog (`MagicSpellSystem.tsx`
lines 6-17; the UI-only string fields `name`, `color`, `particleColor`,
`icon` and the `element` union are omitted, no modelled logic reads
them). -/
structure Spell where
  id : String
  damage : ℚ
  manaCost : ℚ
  gesture : Gesture
  chargeTime : ℚ
deriving DecidableEq, Repr

/-- Catalog entry, `MagicSpellSystem.tsx` lines 55-66. -/
def fireball : Spell :=
  { id := "fireball", damage := 30, manaCost := 15,
    gesture := Gesture.point, chargeTime := 1000 }

/-- Catalog entry, `MagicSpellSystem.tsx` lines 67-78. -/
def waterwave : Spell :=
  { id := "waterwave", damage := 20, manaCost := 10,
    gesture := Gesture.peace, chargeTime := 800 }

/-- Catalog entry, `MagicSpellSystem.tsx` lines 79-90. -/
def lightning : Spell :=
  { id := "lightning", damage := 40, manaCost := 20,
    gesture := Gesture.rock, chargeTime := 1500 }

/-- The `SPELLS` catalog, `MagicSpellSystem.tsx` lines 54-91. -/
def SPELLS : List Spell := [fireball, waterwave, lightning]

/-- A spawned particle (`MagicSpellSystem.tsx` lines 37-45). -/
structure Particle where
  x : ℚ
  y : ℚ
  vx : ℚ
  vy : ℚ
  life : ℚ
  size : ℚ
deriving DecidableEq, Repr

/-- A live projectile (`MagicSpellSystem.tsx` lines 26-35). -/
structure SpellProjectile where
  id : ℕ
  spell : Spell
  x : ℚ
  y : ℚ
  targetX : ℚ
  targetY : ℚ
  speed : ℚ
  particles : List Particle
deriving DecidableEq, Repr

/-- The scarecrow target (`MagicSpellSystem.tsx` lines 19-24). -/
structure Target where
  x : ℚ
  y : ℚ
  health : ℚ
  maxHealth : ℚ
deriving DecidableEq, Repr

/-- One detection cycle's hand data (`types/hand.ts`): the screen-space
keypoints and the classified gesture (confidence and bounding box are
unread by the modelled logic). -/
structure HandData where
  keypoints : List Pt
  gesture : Gesture
deriving DecidableEq, Repr

/-- The `useState`/`useRef` cells of `MagicSpellSystem` (plus the `mana`
prop lifted from `App`, which owns it): the complete state the gesture
effect and `castSpell` read and write. -/
structure GameState where
  mana : ℚ
  scarecrow : Target
  projectiles : List SpellProjectile
  currentSpell : Option Spell
  isCharging : Bool
  chargeProgress : ℚ
  comboCount : ℚ
  hitCount : ℕ
  lastGesture : Gesture
  chargeStartTime : ℕ
deriving DecidableEq, Repr

/-- The projectile record built in `castSpell`
(`MagicSpellSystem.tsx` lines 138-147): spawned at the index-finger tip
(`keypoints[8]`), aimed at the scarecrow's position frozen at cast time,
speed 15, no particles.  `now` stands for `Date.now()`.  Note the record
stores no combo value. -/
def mkProjectile (now : ℕ) (sp : Spell) (h : HandData) (tgt : Target) : SpellProjectile :=
  { id := now, spell := sp,
    x := (h.keypoints.getD 8 ⟨0, 0⟩).x,
    y := (h.keypoints.getD 8 ⟨0, 0⟩).y,
    targetX := tgt.x, targetY := tgt.y,
    speed := 15, particles := [] }

/-- `castSpell` (`MagicSpellSystem.tsx` lines 117-160).  `hd`, `snapMana`
and `snapTarget` are the render-snapshot values the callback closed over
(`handData`, `mana`, `scarecrow`); `s` carries the latest queued state the
functional `setProjectiles` update appends to.  The guard on line 118
rejects the cast when the hand is gone or mana is short, mutating
nothing; otherwise mana drops by the cost, exactly one projectile is
appended, the combo counter increments, and `currentSpell` is cleared.
Audio playback (lines 123-135) is an external fire-and-forget effect. -/
def castSpell (now : ℕ) (sp : Spell) (hd : Option HandData)
    (snapMana : ℚ) (snapTarget : Target) (s : GameState) : GameState :=
  match hd with
  | Option.none => s
  | Option.some h =>
    if snapMana < sp.manaCost then s
    else
      { s with
        mana := snapMana - sp.manaCost,
        projectiles := s.projectiles ++ [mkProjectile now sp h snapTarget],
        comboCount := s.comboCount + 1,
        currentSpell := Option.none }

/-- One run of the gesture-detection effect
(`MagicSpellSystem.tsx` lines 178-207) for one hand-data update.  With no
hand data (line 179) it clears `isCharging` and `chargeProgress` and
returns early, leaving every other cell (including `lastGestureRef`)
untouched.  Otherwise: (1) lines 189-197 start a charge when the previous
gesture was `fist`, the current one is a spell gesture with a catalog
match, and mana covers the cost; (2) lines 200-204 release the charge on
`palm` — the branch conditions read the render snapshot `s`
(`isCharging`, `currentSpell`, `mana`), while the queued writes of branch
(1) are layered under those of branch (2), matching React's update
ordering; (3) line 206 records the gesture in `lastGestureRef`. -/
def gestureStep (now : ℕ) (s : GameState) (hd : Option HandData) : GameState :=
  match hd with
  | Option.none => { s with isCharging := false, chargeProgress := 0 }
  | Option.some h =>
    let g := h.gesture
    let s1 :=
      if s.lastGesture = Gesture.fist ∧ g ≠ Gesture.fist ∧ g ≠ Gesture.none then
        match SPELLS.find? (fun sp => decide (sp.gesture = g)) with
        | Option.some sp =>
          if sp.manaCost ≤ s.mana then
            { s with currentSpell := Option.some sp, isCharging := true,
                     chargeStartTime := now }
          else s
        | Option.none => s
      else s
    let s2 :=
      if s.isCharging = true ∧ g = Gesture.palm then
        match s.currentSpell with
        | Option.some sp =>
          { castSpell now sp (Option.some h) s.mana s.scarecrow s1 with
              isCharging := false, chargeProgress := 0 }
        | Option.none => s1
      else s1
    { s2 with lastGesture := g }

/-- Squared distance from a projectile to its fixed target point.  The
source computes the distance itself as `Math.hypot(dx, dy)`
(`MagicSpellSystem.tsx` line 240); over `ℚ` the square root is carried as
an explicit argument `d` constrained by `d ^ 2 = dist2 p ∧ 0 ≤ d` in the
theorems below. -/
def dist2 (p : SpellProjectile) : ℚ :=
  (p.targetX - p.x) ^ 2 + (p.targetY - p.y) ^ 2

/-- Per-frame particle advance and decay
(`MagicSpellSystem.tsx` lines 275-280): position moves by velocity, life
drops by 0.02. -/
def particleAdvance (q : Particle) : Particle :=
  { q with x := q.x + q.vx, y := q.y + q.vy, life := q.life - 0.02 }

/-- The non-hit branch of the per-projectile frame update
(`MagicSpellSystem.tsx` lines 256-282): move by `speed` along the
normalised direction to the target (`d` is the `Math.hypot` distance of
line 240), append the three freshly emitted particles `emit` (their
random velocity jitter, lines 258-268, enters as this argument), advance
every particle, prune the dead ones. -/
def moveStep (p : SpellProjectile) (d : ℚ) (emit : List Particle) : SpellProjectile :=
  { p with
    x := p.x + (p.targetX - p.x) / d * p.speed,
    y := p.y + (p.targetY - p.y) / d * p.speed,
    particles := ((p.particles ++ emit).map particleAdvance).filter (fun q => 0 < q.life) }

/-- The damage dealt when a projectile hits
(`MagicSpellSystem.tsx` line 244): `spell.damage * (1 + comboCount * 0.1)`
with `comboCount` read from `comboCountRef` at the frame of the
collision. -/
def hitDamage (sp : Spell) (combo : ℚ) : ℚ :=
  sp.damage * (1 + combo * 0.1)

/-- The target-health update on a hit
(`MagicSpellSystem.tsx` lines 245-248): health is clamped at 0. -/
def applyHit (t : Target) (dmg : ℚ) : Target :=
  { t with health := max 0 (t.health - dmg) }

/-- One frame of `updateProjectiles` for a single projectile
(`MagicSpellSystem.tsx` lines 236-283).  `d` is the `Math.hypot` distance
to the target and `combo` the current value of `comboCountRef`.  If
`d < 30` the projectile hits: the target takes `hitDamage`, the hit
counter bumps (third component 1, also standing for the +5 experience
notification), and the projectile is removed (`Option.none`); otherwise it
moves via `moveStep`. -/
def projFrame (d : ℚ) (emit : List Particle) (combo : ℚ)
    (p : SpellProjectile) (t : Target) : Option SpellProjectile × Target × ℕ :=
  if d < 30 then (Option.none, applyHit t (hitDamage p.spell combo), 1)
  else (Option.some (moveStep p d emit), t, 0)

/-- Scalar distance dynamics of one projectile, derived from
`updateProjectiles`: each frame first tests `dist < 30`
(`MagicSpellSystem.tsx` line 242) — a hit resolves on that very frame —
and otherwise moves the projectile `S` units closer
(`dist2_moveStep` below proves the per-frame distance drop is exactly the
speed).  Returns the 1-based frame number on which the hit resolves;
`fuel` bounds the recursion and `Option.none` means the fuel ran out
first. -/
def framesToHit (S : ℚ) : ℕ → ℚ → Option ℕ
  | 0, _ => Option.none
  | fuel + 1, d =>
    if d < 30 then Option.some 1
    else Option.map (fun n => n + 1) (framesToHit S fuel (d - S))

/-- Mana regeneration tick (`App.tsx` lines 110-115): every 1000 ms,
`setMana(prev => Math.min(100, prev + 2))`. -/
def regenTick (m : ℚ) : ℚ := min 100 (m + 2)

/-- The mana effect of a cast attempt: `castSpell`'s guard
(`MagicSpellSystem.tsx` line 118) rejects when `mana < cost`,
otherwise line 121 deducts the cost synchronously. -/
def castMana (cost m : ℚ) : ℚ := if m < cost then m else m - cost

/-- The two kinds of events that ever write the mana cell: the 1000 ms
regeneration interval in `App` and a cast attempt for a catalog spell. -/
inductive ManaEvent where
  | regen
  | cast (sp : Spell)

/-- Apply one mana event. -/
def manaStep (m : ℚ) : ManaEvent → ℚ
  | ManaEvent.regen => regenTick m
  | ManaEvent.cast sp => castMana sp.manaCost m

/-- Run a sequence of mana events. -/
def manaRun (m : ℚ) (evs : List ManaEvent) : ℚ := evs.foldl manaStep m

/-- State of the defeat/respawn bookkeeping around the scarecrow
(`MagicSpellSystem.tsx` lines 163-175): `pending` counts the scheduled
1500 ms respawn timeouts (the effect never clears them) and `rewards` the
+50 experience grants already delivered. -/
structure DefeatSim where
  health : ℚ
  pending : ℕ
  rewards : ℕ
deriving DecidableEq, Repr

/-- The body of the respawn effect (`MagicSpellSystem.tsx` lines
163-175): whenever it runs with `health <= 0` it schedules one more
1500 ms timeout (which will reset health to 500 and grant +50). -/
def respawnEffect (s : DefeatSim) : DefeatSim :=
  if s.health ≤ 0 then { s with pending := s.pending + 1 } else s

/-- Commits after which the respawn effect re-runs.  Its dependency array
is `[scarecrow.health, onExperienceGain]` (line 175), and
`onExperienceGain` is `App`'s `handleExperienceGain`, recreated on every
`App` render (`App.tsx` lines 97-106, no `useCallback`), so the effect
re-runs after every commit in which either the health value changed or
`App` re-rendered:
* `hit d`: a projectile hit (lines 242-254) — health re-clamped and +5
  experience, which makes `App` re-render, so the effect always re-runs;
* `appRender`: any other `App` re-render with health unchanged, e.g. a
  mana-regeneration tick while mana < 100 (`App.tsx` lines 110-115);
* `timerFire`: one scheduled timeout fires (lines 165-173), resetting
  health to 500 and granting +50. -/
inductive RenderEvent where
  | hit (d : ℚ)
  | appRender
  | timerFire

/-- Apply one commit-level event followed by the respawn effect re-run it
triggers. -/
def defeatStep (s : DefeatSim) : RenderEvent → DefeatSim
  | RenderEvent.hit d => respawnEffect { s with health := max 0 (s.health - d) }
  | RenderEvent.appRender => respawnEffect s
  | RenderEvent.timerFire =>
    match s.pending with
    | 0 => s
    | n + 1 => respawnEffect { health := 500, pending := n, rewards := s.rewards + 1 }

/-- Run a sequence of commit-level events. -/
def defeatRun (s : DefeatSim) (evs : List RenderEvent) : DefeatSim :=
  evs.foldl defeatStep s

/-- A sample idle machine state with 50 mana, used as concrete input by
the witnesses below. -/
def idleState : GameState :=
  { mana := 50, scarecrow := { x := 900, y := 400, health := 500, maxHealth := 500 },
    projectiles := [], currentSpell := Option.none, isCharging := false,
    chargeProgress := 0, comboCount := 0, hitCount := 0,
    lastGesture := Gesture.none, chargeStartTime := 0 }

/-- A sample idle state with only 5 mana. -/
def poorState : GameState :=
  { idleState with mana := 5, lastGesture := Gesture.fist }

/-- A sample state charging the fireball but with only 5 mana. -/
def chargingPoorState : GameState :=
  { idleState with
    mana := 5, currentSpell := Option.some fireball,
    isCharging := true, lastGesture := Gesture.point }

/-- A sample hand-data frame showing a fist. -/
def fistHand : HandData := { keypoints := [], gesture := Gesture.fist }

/-- A sample hand-data frame showing a point. -/
def pointHand : HandData := { keypoints := [], gesture := Gesture.point }

/-- A sample hand-data frame showing a palm. -/
def palmHand : HandData := { keypoints := [], gesture := Gesture.palm }

/-- A sample fireball projectile 50 units left of its target. -/
def sampleProjectile : SpellProjectile :=
  { id := 0, spell := fireball, x := 0, y := 0, targetX := 50, targetY := 0,
    speed := 15, particles := [] }

/-- Boolean-level characterisation of the `point` branch: the thumb is
never consulted. -/
theorem classify_eq_point_iff (t i m r p : Bool) :
    classify t i m r p = Gesture.point ↔ (i = true ∧ m = false ∧ r = false ∧ p = false) := by
  cases t <;> cases i <;> cases m <;> cases r <;> cases p <;> decide

/-- `SPELLS.find(s => s.gesture === 'point')` yields the fireball. -/
theorem find_point_spell :
    SPELLS.find? (fun sp => decide (sp.gesture = Gesture.point)) = Option.some fireball := rfl

/-- `SPELLS.find(s => s.gesture === 'peace')` yields the water wave. -/
theorem find_peace_spell :
    SPELLS.find? (fun sp => decide (sp.gesture = Gesture.peace)) = Option.some waterwave := rfl

/-- `SPELLS.find(s => s.gesture === 'rock')` yields the lightning. -/
theorem find_rock_spell :
    SPELLS.find? (fun sp => decide (sp.gesture = Gesture.rock)) = Option.some lightning := rfl

/-- No catalog spell is triggered by the `palm` gesture. -/
theorem find_palm_spell :
    SPELLS.find? (fun sp => decide (sp.gesture = Gesture.palm)) = Option.none := rfl

/-- C2, as the spec states it, is false: losing hand input while a charge
is active does NOT leave the machine as-is — the effect's early return
(`MagicSpellSystem.tsx` lines 179-183) clears `isCharging`.  Concretely:
a state charging the fireball, fed `null` hand data, comes out with
`isCharging = false`. -/
theorem c2_counterexample :
    (let s : GameState :=
      { mana := 50, scarecrow := { x := 900, y := 400, health := 500, maxHealth := 500 },
        projectiles := [], currentSpell := Option.some fireball, isCharging := true,
        chargeProgress := 1/2, comboCount := 0, hitCount := 0,
        lastGesture := Gesture.point, chargeStartTime := 0 }
     s.isCharging = true ∧ (gestureStep 7 s Option.none).isCharging = false) :=
  ⟨rfl, rfl⟩

/-- C2 amended: when hand data becomes unavailable the effect cancels the
charging flag and resets the charge progress, and changes nothing else —
mana, the selected spell, the last-gesture cell, the combo counter, the
projectiles and the target are all untouched (so an `Idle` machine stays
`Idle`, but an active `Charging` session loses its `isCharging` flag). -/
theorem c2_lost_input_cancels_charge_only (now : ℕ) (s : GameState) :
    gestureStep now s Option.none = { s with isCharging := false, chargeProgress := 0 } := rfl

/-- C7, as the spec states it, is false: a landmark set with thumb and
index extended and middle, ring, pinky non-extended is classified
`point`, not `unknown` — the `point` rule (`useTensorFlowHandTracking.ts`
line 59) never consults the thumb. -/
theorem c7_counterexample :
    (let thumbIndexHand : List Pt :=
      [⟨0, 10⟩, ⟨0, 10⟩, ⟨0, 5⟩, ⟨0, 10⟩, ⟨0, 1⟩,
       ⟨0, 10⟩, ⟨0, 5⟩, ⟨0, 10⟩, ⟨0, 1⟩,
       ⟨0, 10⟩, ⟨0, 10⟩, ⟨0, 10⟩, ⟨0, 10⟩,
       ⟨0, 10⟩, ⟨0, 10⟩, ⟨0, 10⟩, ⟨0, 10⟩,
       ⟨0, 10⟩, ⟨0, 10⟩, ⟨0, 10⟩, ⟨0, 10⟩]
     detectGesture thumbIndexHand = Gesture.point ∧ Gesture.point ≠ Gesture.unknown) := by
  constructor
  · rfl
  · decide

/-- C7 amended: after rules 1 (fist) and 2 (palm) fail, the classifier
returns `point` exactly when the index digit is extended and middle,
ring and pinky are not — the thumb is ignored, so the thumb-and-index
hand of the counterexample is `point`, not `unknown`. -/
theorem c7_point_characterisation (ls : List Pt) (hne : ls ≠ []) :
    detectGesture ls = Gesture.point ↔
      (yAt ls 8 < yAt ls 6 ∧ ¬ yAt ls 12 < yAt ls 10 ∧
       ¬ yAt ls 16 < yAt ls 14 ∧ ¬ yAt ls 20 < yAt ls 18) := by
  have hemp : ls.isEmpty = false := by
    cases ls with
    | nil => cases hne rfl
    | cons a l => rfl
  rw [detectGesture, hemp, if_neg (by simp)]
  rw [classify_eq_point_iff]
  simp [decide_eq_true_iff, decide_eq_false_iff_not]

/-- Witness for the amended C7 at the concrete thumb-and-index hand. -/
theorem c7_point_characterisation_witness :
    (detectGesture
        [⟨0, 10⟩, ⟨0, 10⟩, ⟨0, 5⟩, ⟨0, 10⟩, ⟨0, 1⟩,
         ⟨0, 10⟩, ⟨0, 5⟩, ⟨0, 10⟩, ⟨0, 1⟩,
         ⟨0, 10⟩, ⟨0, 10⟩, ⟨0, 10⟩, ⟨0, 10⟩,
         ⟨0, 10⟩, ⟨0, 10⟩, ⟨0, 10⟩, ⟨0, 10⟩,
         ⟨0, 10⟩, ⟨0, 10⟩, ⟨0, 10⟩, ⟨0, 10⟩] = Gesture.point ↔
      ((1 : ℚ) < 5 ∧ ¬ (10 : ℚ) < 10 ∧ ¬ (10 : ℚ) < 10 ∧ ¬ (10 : ℚ) < 10)) := by
  have h := c7_point_characterisation
    [⟨0, 10⟩, ⟨0, 10⟩, ⟨0, 5⟩, ⟨0, 10⟩, ⟨0, 1⟩,
     ⟨0, 10⟩, ⟨0, 5⟩, ⟨0, 10⟩, ⟨0, 1⟩,
     ⟨0, 10⟩, ⟨0, 10⟩, ⟨0, 10⟩, ⟨0, 10⟩,
     ⟨0, 10⟩, ⟨0, 10⟩, ⟨0, 10⟩, ⟨0, 10⟩,
     ⟨0, 10⟩, ⟨0, 10⟩, ⟨0, 10⟩, ⟨0, 10⟩] (by decide)
  exact h

/-- C1: from an idle state with mana at least the fireball's cost, the
gesture sequence fist → point puts the machine into a charging state for
the fireball, and a following palm gesture performs exactly one cast:
mana drops by exactly `fireball.manaCost` (which is 15) and exactly one
projectile — a fireball one — is appended. -/
theorem c1_fist_point_palm_casts_fireball (t1 t2 t3 : ℕ) (s0 : GameState)
    (h1 h2 h3 : HandData)
    (hIdle : s0.isCharging = false) (hMana : 15 ≤ s0.mana)
    (hg1 : h1.gesture = Gesture.fist) (hg2 : h2.gesture = Gesture.point)
    (hg3 : h3.gesture = Gesture.palm) :
    (gestureStep t2 (gestureStep t1 s0 (Option.some h1)) (Option.some h2)).isCharging = true ∧
    (gestureStep t2 (gestureStep t1 s0 (Option.some h1)) (Option.some h2)).currentSpell
      = Option.some fireball ∧
    (gestureStep t3 (gestureStep t2 (gestureStep t1 s0 (Option.some h1)) (Option.some h2))
        (Option.some h3)).mana = s0.mana - fireball.manaCost ∧
    (gestureStep t3 (gestureStep t2 (gestureStep t1 s0 (Option.some h1)) (Option.some h2))
        (Option.some h3)).projectiles
      = s0.projectiles ++ [mkProjectile t3 fireball h3 s0.scarecrow] ∧
    fireball.manaCost = 15 := by
  have hm' : ¬ s0.mana < 15 := not_lt.mpr hMana
  have e1 : gestureStep t1 s0 (Option.some h1) = { s0 with lastGesture := Gesture.fist } := by
    simp [gestureStep, hg1, hIdle]
  have e2 : gestureStep t2 (gestureStep t1 s0 (Option.some h1)) (Option.some h2)
      = { s0 with lastGesture := Gesture.point, currentSpell := Option.some fireball,
                  isCharging := true, chargeStartTime := t2 } := by
    rw [e1]
    simp [gestureStep, hg2, hIdle, find_point_spell, fireball, hm', hMana]
  have e3 : gestureStep t3 (gestureStep t2 (gestureStep t1 s0 (Option.some h1)) (Option.some h2))
      (Option.some h3)
      = { s0 with lastGesture := Gesture.palm, currentSpell := Option.none,
                  isCharging := false, chargeStartTime := t2, chargeProgress := 0,
                  mana := s0.mana - 15,
                  projectiles := s0.projectiles ++ [mkProjectile t3 fireball h3 s0.scarecrow],
                  comboCount := s0.comboCount + 1 } := by
    rw [e2]
    simp [gestureStep, hg3, castSpell, fireball, hm']
  rw [e3, e2]
  simp [fireball]

/-- C8: a charge attempt for a catalog spell whose mana cost exceeds the
current mana is silently rejected (`MagicSpellSystem.tsx` line 192): the
machine stays idle, and mana, the selected spell, the projectiles and the
combo counter are untouched — only the last-gesture cell records the new
gesture, as it does on every cycle. -/
theorem c8_insufficient_mana_rejects_charge (now : ℕ) (s : GameState) (h : HandData)
    (sp : Spell) (hsp : sp ∈ SPELLS) (hg : h.gesture = sp.gesture)
    (hIdle : s.isCharging = false) (hm : s.mana < sp.manaCost) :
    gestureStep now s (Option.some h) = { s with lastGesture := h.gesture } := by
  have hsp' : sp = fireball ∨ sp = waterwave ∨ sp = lightning := by
    simpa [SPELLS] using hsp
  rcases hsp' with rfl | rfl | rfl
  · simp only [fireball] at hg hm
    by_cases hl : s.lastGesture = Gesture.fist
    · simp [gestureStep, hg, hl, find_point_spell, hIdle, fireball, not_le.mpr hm]
    · simp [gestureStep, hg, hl, hIdle]
  · simp only [waterwave] at hg hm
    by_cases hl : s.lastGesture = Gesture.fist
    · simp [gestureStep, hg, hl, find_peace_spell, hIdle, waterwave, not_le.mpr hm]
    · simp [gestureStep, hg, hl, hIdle]
  · simp only [lightning] at hg hm
    by_cases hl : s.lastGesture = Gesture.fist
    · simp [gestureStep, hg, hl, find_rock_spell, hIdle, lightning, not_le.mpr hm]
    · simp [gestureStep, hg, hl, hIdle]

/-- C10: a palm release during a charging session whose in-cast recheck
fails mutates nothing — mana, projectiles and combo are unchanged (and
even `currentSpell` is left in place, since the early return skips
`setCurrentSpell(null)`) — yet the session still ends: `isCharging` is
cleared and the charge progress reset, so the session is consumed without
a cast.  The second conjunct covers the other arm of the line-118 guard:
with no hand data `castSpell` mutates nothing at all. -/
theorem c10_failed_recheck_consumes_session (now : ℕ) (s : GameState) (h : HandData)
    (sp : Spell) (hchg : s.isCharging = true) (hcur : s.currentSpell = Option.some sp)
    (hg : h.gesture = Gesture.palm) (hm : s.mana < sp.manaCost) :
    gestureStep now s (Option.some h)
      = { s with isCharging := false, chargeProgress := 0, lastGesture := Gesture.palm } ∧
    (∀ (m : ℚ) (tgt : Target) (s' : GameState),
      castSpell now sp Option.none m tgt s' = s') := by
  refine ⟨?_, fun m tgt s' => rfl⟩
  by_cases hl : s.lastGesture = Gesture.fist
  · simp [gestureStep, hg, hl, find_palm_spell, hchg, hcur, castSpell, hm]
  · simp [gestureStep, hg, hl, hchg, hcur, castSpell, hm]

/-- Witness for C1 at a concrete idle state with 50 mana. -/
theorem c1_fist_point_palm_casts_fireball_witness :
    (gestureStep 2 (gestureStep 1 idleState (Option.some fistHand))
        (Option.some pointHand)).isCharging = true ∧
    (gestureStep 2 (gestureStep 1 idleState (Option.some fistHand))
        (Option.some pointHand)).currentSpell = Option.some fireball ∧
    (gestureStep 3 (gestureStep 2 (gestureStep 1 idleState (Option.some fistHand))
        (Option.some pointHand)) (Option.some palmHand)).mana
      = idleState.mana - fireball.manaCost ∧
    (gestureStep 3 (gestureStep 2 (gestureStep 1 idleState (Option.some fistHand))
        (Option.some pointHand)) (Option.some palmHand)).projectiles
      = idleState.projectiles ++ [mkProjectile 3 fireball palmHand idleState.scarecrow] ∧
    fireball.manaCost = 15 :=
  c1_fist_point_palm_casts_fireball 1 2 3 idleState fistHand pointHand palmHand
    rfl (by norm_num [idleState]) rfl rfl rfl

/-- Witness for C8 at a concrete idle state with 5 mana and a pointed
index finger. -/
theorem c8_insufficient_mana_rejects_charge_witness :
    gestureStep 0 poorState (Option.some pointHand)
      = { poorState with lastGesture := pointHand.gesture } :=
  c8_insufficient_mana_rejects_charge 0 poorState pointHand fireball
    (List.mem_cons_self fireball [waterwave, lightning]) rfl rfl
    (by norm_num [poorState, idleState, fireball])

/-- Witness for C10 at a concrete charging state with 5 mana. -/
theorem c10_failed_recheck_consumes_session_witness :
    gestureStep 0 chargingPoorState (Option.some palmHand)
      = { chargingPoorState with
          isCharging := false, chargeProgress := 0, lastGesture := Gesture.palm } ∧
    (∀ (m : ℚ) (tgt : Target) (s' : GameState),
      castSpell 0 fireball Option.none m tgt s' = s') :=
  c10_failed_recheck_consumes_session 0 chargingPoorState palmHand fireball
    rfl rfl rfl (by norm_num [chargingPoorState, idleState, fireball])

/-- Moving a projectile one frame (`moveStep`, with `d` the exact
`Math.hypot` distance to the target) shrinks the squared distance to
`(d - speed) ^ 2`: the projectile travels exactly `speed` units straight
towards the fixed target point. -/
theorem dist2_moveStep (p : SpellProjectile) (d : ℚ) (emit : List Particle)
    (hd0 : d ≠ 0) (hd : d ^ 2 = dist2 p) :
    dist2 (moveStep p d emit) = (d - p.speed) ^ 2 := by
  have hd2 : d ^ 2 ≠ 0 := pow_ne_zero _ hd0
  have key : dist2 (moveStep p d emit) * d ^ 2 = dist2 p * (d - p.speed) ^ 2 := by
    simp only [dist2, moveStep]
    field_simp
    ring
  have key2 : dist2 (moveStep p d emit) * d ^ 2 = (d - p.speed) ^ 2 * d ^ 2 := by
    rw [key, ← hd]; ring
  exact mul_right_cancel₀ hd2 key2

/-- C5: a live projectile — one at distance `d ≥ 30` (the hit radius)
from its fixed target, hence not yet resolved by the line-242 check —
moves so that its distance to the target becomes exactly `d - 15` (the
speed): the distance stays non-negative and strictly decreases every
frame until the collision. -/
theorem c5_live_distance_strictly_decreases (p : SpellProjectile) (d : ℚ)
    (emit : List Particle) (hspeed : p.speed = 15) (hlive : 30 ≤ d)
    (hd : d ^ 2 = dist2 p) :
    dist2 (moveStep p d emit) = (d - 15) ^ 2 ∧ 0 ≤ d - 15 ∧ d - 15 < d := by
  have hd0 : d ≠ 0 := by
    intro h
    rw [h] at hlive
    norm_num at hlive
  refine ⟨?_, by linarith, by linarith⟩
  rw [dist2_moveStep p d emit hd0 hd, hspeed]

/-- Witness for C5 at a concrete fireball projectile 50 units from its
target. -/
theorem c5_live_distance_strictly_decreases_witness :
    dist2 (moveStep sampleProjectile 50 []) = (50 - 15) ^ 2 ∧
    (0 : ℚ) ≤ 50 - 15 ∧ (50 : ℚ) - 15 < 50 :=
  c5_live_distance_strictly_decreases sampleProjectile 50 [] rfl (by norm_num)
    (by norm_num [dist2, sampleProjectile])

/-- C4: when a projectile's distance test fires (`d < 30`,
`MagicSpellSystem.tsx` line 242), the health subtracted is
`spell.damage * (1 + comboCount / 10)` where `comboCount` is the value
passed into the frame — the live `comboCountRef.current` read at the
collision frame.  A `SpellProjectile` record stores no combo value at
all, so the counter's value at cast time cannot enter the damage; only
the frame-of-collision value does.  The projectile is removed in the
same frame. -/
theorem c4_damage_uses_collision_frame_combo (p : SpellProjectile) (t : Target)
    (combo d : ℚ) (emit : List Particle) (hhit : d < 30) :
    (projFrame d emit combo p t).2.1.health
      = max 0 (t.health - p.spell.damage * (1 + combo * (1 / 10))) ∧
    (projFrame d emit combo p t).1 = Option.none := by
  constructor
  · simp only [projFrame, if_pos hhit, applyHit, hitDamage]
    norm_num
  · simp only [projFrame, if_pos hhit]

/-- Witness for C4: a fireball (damage 30) hitting at distance 20 with a
combo of 3 removes `30 * 1.3 = 39` health. -/
theorem c4_damage_uses_collision_frame_combo_witness :
    (projFrame 20 [] 3 sampleProjectile
        { x := 900, y := 400, health := 500, maxHealth := 500 }).2.1.health
      = max 0 (500 - sampleProjectile.spell.damage * (1 + 3 * (1 / 10))) ∧
    (projFrame 20 [] 3 sampleProjectile
        { x := 900, y := 400, health := 500, maxHealth := 500 }).1 = Option.none :=
  c4_damage_uses_collision_frame_combo sampleProjectile
    { x := 900, y := 400, health := 500, maxHealth := 500 } 3 20 [] (by norm_num)

/-- Closed form of the scalar collision dynamics: a projectile starting
at distance `d` with `30 + 15k ≤ d < 30 + 15(k+1)` survives `k + 1`
pre-move distance checks and is resolved as a hit on frame `k + 2`. -/
theorem framesToHit_closed (k : ℕ) : ∀ (fuel : ℕ) (d : ℚ), k + 2 ≤ fuel →
    30 + 15 * (k : ℚ) ≤ d → d < 30 + 15 * ((k : ℚ) + 1) →
    framesToHit 15 fuel d = Option.some (k + 2) := by
  induction k with
  | zero =>
    intro fuel d hf h1 h2
    obtain ⟨f, rfl⟩ : ∃ f, fuel = f + 1 + 1 := ⟨fuel - 2, by omega⟩
    rw [framesToHit, if_neg (by push_cast at h1; linarith), framesToHit,
      if_pos (by push_cast at h2; linarith)]
    rfl
  | succ k ih =>
    intro fuel d hf h1 h2
    obtain ⟨f, rfl⟩ : ∃ f, fuel = f + 1 := ⟨fuel - 1, by omega⟩
    have hk : (0 : ℚ) ≤ (k : ℚ) := Nat.cast_nonneg k
    push_cast at h1 h2
    rw [framesToHit, if_neg (by linarith),
      ih f (d - 15) (by omega) (by linarith) (by linarith)]
    rfl

/-- C6 amended: with the fixed speed `S = 15` and the 30-unit hit
radius, a projectile spawned at distance `D ≥ 30` is resolved as a hit
after exactly `⌊(D - 30) / 15⌋ + 2` frames (the check `dist < 30` runs
before each move), and this count equals `⌈D/S⌉` or `⌈D/S⌉ - 1` — the
"rounding at the hit-radius boundary" can lose one full frame, so the
count is not exactly `⌈D/S⌉` in general. -/
theorem c6_collision_frame_count (D : ℚ) (fuel : ℕ) (hD : 30 ≤ D)
    (hfuel : (⌊(D - 30) / 15⌋).toNat + 2 ≤ fuel) :
    framesToHit 15 fuel D = Option.some ((⌊(D - 30) / 15⌋).toNat + 2) ∧
    (((⌊(D - 30) / 15⌋).toNat + 2 : ℕ) : ℤ) ≤ ⌈D / 15⌉ ∧
    ⌈D / 15⌉ ≤ (((⌊(D - 30) / 15⌋).toNat + 2 : ℕ) : ℤ) + 1 := by
  have hq : (0 : ℚ) ≤ (D - 30) / 15 := div_nonneg (by linarith) (by norm_num)
  have hfl : 0 ≤ ⌊(D - 30) / 15⌋ := Int.floor_nonneg.mpr hq
  set k : ℕ := (⌊(D - 30) / 15⌋).toNat with hk
  have hkz : (k : ℤ) = ⌊(D - 30) / 15⌋ := Int.toNat_of_nonneg hfl
  have hkq : ((k : ℚ)) = ((⌊(D - 30) / 15⌋ : ℤ) : ℚ) := by
    rw [← hkz]
    push_cast
    ring
  have hlow : 30 + 15 * (k : ℚ) ≤ D := by
    have h := Int.floor_le ((D - 30) / 15)
    rw [← hkq] at h
    have h' : (k : ℚ) * 15 ≤ D - 30 := (le_div_iff₀ (by norm_num)).mp h
    linarith
  have hhigh : D < 30 + 15 * ((k : ℚ) + 1) := by
    have h := Int.lt_floor_add_one ((D - 30) / 15)
    rw [← hkq] at h
    have h' : D - 30 < ((k : ℚ) + 1) * 15 := (div_lt_iff₀ (by norm_num)).mp h
    linarith
  refine ⟨framesToHit_closed k fuel D hfuel hlow hhigh, ?_, ?_⟩
  · have hle : ((k : ℚ) + 2) ≤ D / 15 := by
      rw [le_div_iff₀ (by norm_num : (0:ℚ) < 15)]
      linarith
    have h := le_trans hle (Int.le_ceil (D / 15))
    exact_mod_cast h
  · push_cast
    refine Int.ceil_le.mpr ?_
    push_cast
    rw [div_le_iff₀ (by norm_num : (0:ℚ) < 15)]
    linarith

/-- Witness for the amended C6 at `D = 100`: the hit resolves on frame
6 = ⌊70/15⌋ + 2, while `⌈100/15⌉ = 7`. -/
theorem c6_collision_frame_count_witness :
    framesToHit 15 10 100 = Option.some ((⌊(((100 : ℚ)) - 30) / 15⌋).toNat + 2) ∧
    (((⌊(((100 : ℚ)) - 30) / 15⌋).toNat + 2 : ℕ) : ℤ) ≤ ⌈(100 : ℚ) / 15⌉ ∧
    ⌈(100 : ℚ) / 15⌉ ≤ (((⌊(((100 : ℚ)) - 30) / 15⌋).toNat + 2 : ℕ) : ℤ) + 1 :=
  c6_collision_frame_count 100 10 (by norm_num) (by norm_num; decide)

/-- C6, as the spec states it ("collides after exactly `ceil(D/S)`
frames"), is false at `D = 100`, `S = 15`: the projectile is resolved on
frame 6 while `⌈100/15⌉ = 7` — the 30-unit hit radius saves a frame
except when `15 ∣ D`. -/
theorem c6_counterexample :
    framesToHit 15 10 100 = Option.some 6 ∧ ⌈(100 : ℚ) / 15⌉ = 7 ∧ (6 : ℤ) ≠ 7 := by
  refine ⟨framesToHit_closed 4 10 100 (by norm_num) (by norm_num) (by norm_num), ?_, by decide⟩
  rw [Int.ceil_eq_iff]
  norm_num

/-- C9: mana stays in `[0, 100]` under any interleaving of regeneration
ticks (`min 100 (m + 2)` every 1000 ms) and cast attempts (rejected when
`mana < cost`, otherwise a synchronous deduction) — the only two writers
of the mana cell — and, concretely, five regeneration ticks from mana 50
(5000 ms with no casts) give exactly 60. -/
theorem c9_mana_regen_and_bounds :
    (∀ (evs : List ManaEvent) (m : ℚ),
      (∀ sp, ManaEvent.cast sp ∈ evs → 0 ≤ sp.manaCost) →
      0 ≤ m → m ≤ 100 → 0 ≤ manaRun m evs ∧ manaRun m evs ≤ 100) ∧
    manaRun 50 (List.replicate 5 ManaEvent.regen) = 60 := by
  constructor
  · intro evs
    induction evs with
    | nil =>
      intro m hc h0 h100
      simpa [manaRun] using ⟨h0, h100⟩
    | cons e rest ih =>
      intro m hc h0 h100
      have hstep : 0 ≤ manaStep m e ∧ manaStep m e ≤ 100 := by
        cases e with
        | regen =>
          constructor
          · simp only [manaStep, regenTick, le_min_iff]
            constructor <;> linarith
          · exact min_le_left _ _
        | cast sp =>
          have hc0 : 0 ≤ sp.manaCost := hc sp (by simp)
          simp only [manaStep, castMana]
          split
          · exact ⟨h0, h100⟩
          · constructor <;> linarith [not_lt.mp (by assumption : ¬ m < sp.manaCost)]
      have hrest : ∀ sp, ManaEvent.cast sp ∈ rest → 0 ≤ sp.manaCost :=
        fun sp hm => hc sp (by simp [hm])
      simpa [manaRun, List.foldl_cons] using ih (manaStep m e) hrest hstep.1 hstep.2
  · norm_num [manaRun, List.replicate, List.foldl_cons, manaStep, regenTick]

/-- Witness for C9's universally quantified part: one regeneration tick
followed by a fireball cast, starting from 50 mana, stays in `[0, 100]`. -/
theorem c9_mana_regen_and_bounds_witness :
    0 ≤ manaRun 50 [ManaEvent.regen, ManaEvent.cast fireball] ∧
    manaRun 50 [ManaEvent.regen, ManaEvent.cast fireball] ≤ 100 :=
  c9_mana_regen_and_bounds.1 [ManaEvent.regen, ManaEvent.cast fireball] 50
    (by
      intro sp hsp
      simp only [List.mem_cons, List.not_mem_nil, or_false, reduceCtorEq, false_or,
        ManaEvent.cast.injEq] at hsp
      subst hsp
      norm_num [fireball])
    (by norm_num) (by norm_num)

/-- C3's exactly-once defeat reward is violated by the code: one single
health-reaching-zero transition (a 500-damage hit on a full-health
scarecrow) followed by one unrelated `App` re-render inside the 1500 ms
defeat window (e.g. the mana-regeneration tick, which recreates
`handleExperienceGain` and therefore re-triggers the effect whose
dependency array is `[scarecrow.health, onExperienceGain]`) schedules two
respawn timeouts, and when both fire the +50 defeat reward is granted
twice.  Health, for its part, is clamped and ends back at the respawn
value 500. -/
theorem c3_defeat_reward_granted_twice :
    defeatRun { health := 500, pending := 0, rewards := 0 }
        [RenderEvent.hit 500, RenderEvent.appRender,
         RenderEvent.timerFire, RenderEvent.timerFire]
      = { health := 500, pending := 0, rewards := 2 } := by
  norm_num [defeatRun, defeatStep, respawnEffect, List.foldl_cons]

end MagicSpell
